import Mathlib

/-
Verification of the approval state machine, scope resolver, approval action
executor and hours engine of the research-output management system.

The definitions below are shallow embeddings of the Python sources:
  app/services/approval.py       (scope resolver, approval workflow, executor)
  app/blueprints/admin/approval.py and helpers.py (route guards)
  app/hours_calculator.py        (hours engine)

Numeric values are modelled as exact rationals; Python's float `round(x, 2)`
is modelled as rounding to cents with half-to-even tie breaking, matching
Python's rounding rule on exact values.  Database access is modelled by
passing the fetched rows / derived flags as explicit arguments.  Purely
cosmetic outputs (flash message lists, per-type display dictionaries) are
omitted; refusal error messages are kept.
-/

namespace Web

/-! ## Generic helpers -/

/-- Insert into a sorted list (ascending). -/
def insertSorted {α : Type} [LinearOrder α] (a : α) : List α → List α
  | [] => [a]
  | x :: xs => if a ≤ x then a :: x :: xs else x :: insertSorted a xs

/-- Python's `sorted(set(xs))`: the sorted list of distinct elements. -/
def sortedUnique {α : Type} [LinearOrder α] [DecidableEq α] (xs : List α) : List α :=
  xs.eraseDups.foldr insertSorted []

/-- Round a rational to the nearest integer, ties to even (Python `round`). -/
def roundHalfEven (x : ℚ) : ℤ :=
  if x - ⌊x⌋ < 1/2 then ⌊x⌋
  else if x - ⌊x⌋ > 1/2 then ⌊x⌋ + 1
  else if ⌊x⌋ % 2 = 0 then ⌊x⌋ else ⌊x⌋ + 1

/-- Python's `round(x, 2)` on exact values. -/
def round2 (x : ℚ) : ℚ :=
  (roundHalfEven (x * 100) : ℚ) / 100

/-- Python `str.strip()`: drop whitespace from both ends (written on the
character list so that it evaluates by kernel reduction). -/
def pyStrip (s : String) : String :=
  ⟨((s.data.dropWhile Char.isWhitespace).reverse.dropWhile Char.isWhitespace).reverse⟩

/-- Python `str.lower()` (ASCII case folding, as in `String.toLower`). -/
def pyLower (s : String) : String :=
  ⟨s.data.map Char.toLower⟩

/-- Lexicographic code-point comparison of character lists (Python `<` on
strings). -/
def charListLT : List Char → List Char → Bool
  | [], [] => false
  | [], _ :: _ => true
  | _ :: _, [] => false
  | a :: as, b :: bs =>
    if a.toNat < b.toNat then true
    else if b.toNat < a.toNat then false
    else charListLT as bs

/-- Python `<` on strings. -/
def strLT (a b : String) : Bool :=
  charListLT a.data b.data

/-! ## Approval state machine (`app/services/approval.py`, pure logic) -/

/-- `ApprovalContext`: all inputs needed to evaluate approval permissions and
transitions. -/
structure ApprovalContext where
  current_status : String
  is_office : Bool
  can_university : Bool
  can_faculty : Bool
  can_department : Bool
  missing_department_admin : Bool
  missing_faculty_admin : Bool
deriving DecidableEq

/-- Python `ctx.current_status or "pending"` (empty/absent status falls back). -/
def statusOrPending (s : String) : String :=
  if s = "" then "pending" else s

/-- `can_approve`: returns (can_approve, message); the message is non-empty only
when not allowed. -/
def can_approve (ctx : ApprovalContext) : Bool × String :=
  let s := statusOrPending ctx.current_status
  if ctx.is_office then
    if s ≠ "pending" then (false, "Công trình không ở trạng thái chờ duyệt.")
    else if !ctx.can_university then
      (false, "Công trình thuộc Phòng ban, chỉ Admin Trường mới duyệt được.")
    else (true, "")
  else if s = "pending" then
    if ctx.can_department then (true, "")
    else if ctx.can_faculty && ctx.missing_department_admin then (true, "")
    else if ctx.can_university && ctx.missing_department_admin && ctx.missing_faculty_admin then
      (true, "")
    else (false, "Cần quyền Admin Bộ môn đúng phạm vi để xác nhận.")
  else if s = "department_approved" then
    if ctx.can_faculty then (true, "")
    else if ctx.can_university && ctx.missing_faculty_admin then (true, "")
    else (false, "Cần quyền Admin Khoa đúng phạm vi để duyệt bước này.")
  else if s = "faculty_approved" then
    if ctx.can_university then (true, "")
    else (false, "Cần quyền Admin Trường để phê duyệt bước cuối.")
  else (false, "Công trình không ở trạng thái chờ duyệt.")

/-- `next_status`: the next approval_status after an approve action. -/
def next_status (ctx : ApprovalContext) : String :=
  let s := statusOrPending ctx.current_status
  if ctx.is_office then
    if s = "pending" && ctx.can_university then "approved" else s
  else if s = "pending" then
    if ctx.can_department then "department_approved"
    else if ctx.can_faculty && ctx.missing_department_admin then "faculty_approved"
    else if ctx.can_university && ctx.missing_department_admin && ctx.missing_faculty_admin then
      "approved"
    else s
  else if s = "department_approved" then
    if ctx.can_faculty then "faculty_approved"
    else if ctx.can_university && ctx.missing_faculty_admin then "approved"
    else s
  else if s = "faculty_approved" then
    if ctx.can_university then "approved" else s
  else s

/-- `action_level`: which level is performing the approve at the current state. -/
def action_level (ctx : ApprovalContext) : Option String :=
  let s := statusOrPending ctx.current_status
  if ctx.is_office then
    if s = "pending" && ctx.can_university then some "university" else none
  else if s = "pending" then
    if ctx.can_department then some "department"
    else if ctx.can_faculty && ctx.missing_department_admin then some "faculty"
    else if ctx.can_university && ctx.missing_department_admin && ctx.missing_faculty_admin then
      some "university"
    else none
  else if s = "department_approved" then
    if ctx.can_faculty then some "faculty"
    else if ctx.can_university && ctx.missing_faculty_admin then some "university"
    else none
  else if s = "faculty_approved" && ctx.can_university then some "university"
  else none

/-- `can_return`: whether the admin can return (send back) the item. -/
def can_return (ctx : ApprovalContext) : Bool :=
  if ctx.is_office then ctx.can_university
  else ctx.can_university || ctx.can_faculty || ctx.can_department

/-- `approval_can_return` wrapper: for office users only university access
matters. -/
def approval_can_return (is_office has_university_access can_university
    can_faculty can_department : Bool) : Bool :=
  can_return
    { current_status := "pending"
      is_office := is_office
      can_university := if is_office then has_university_access else can_university
      can_faculty := can_faculty
      can_department := can_department
      missing_department_admin := false
      missing_faculty_admin := false }

/-! Measurements used to state the one-step / gap-skipping claims: position of
each status along the chain pending → department_approved → faculty_approved →
approved, and the number of levels the gap flags report vacant. -/

/-- Index of a status along the approval chain. -/
def statusIdx (s : String) : Nat :=
  if s = "pending" then 0
  else if s = "department_approved" then 1
  else if s = "faculty_approved" then 2
  else if s = "approved" then 3
  else 0

/-- Number of levels the gap flags report vacant. -/
def vacantCount (ctx : ApprovalContext) : Nat :=
  (if ctx.missing_department_admin then 1 else 0) +
    (if ctx.missing_faculty_admin then 1 else 0)

/-! ## Scope resolver (`app/services/approval.py`) -/

/-- An `AdminRole` row: level, scope references, active flag.  `org_unit_name`
and `division_name` are the names of the referenced rows (empty string when the
reference is absent), used only as sort keys. -/
structure AdminRole where
  id : Nat
  role_level : String
  organization_unit_id : Option Nat
  division_id : Option Nat
  is_active : Bool
  org_unit_name : String
  division_name : String
deriving DecidableEq

/-- The two session values the resolver reads: plain-user mode flag and the
persisted act-as role id. -/
structure SessionState where
  act_as_user_mode : Bool
  act_as_role_id : Option Nat
deriving DecidableEq

/-- `ADMIN_LEVEL_HIERARCHY.get(level, 0)`. -/
def adminLevelHierarchy (level : String) : Nat :=
  if level = "none" then 0
  else if level = "department" then 1
  else if level = "faculty" then 2
  else if level = "university" then 3
  else 0

/-- Membership test in the `ADMIN_LEVEL_HIERARCHY` dict. -/
def isValidLevel (level : String) : Bool :=
  level = "none" || level = "department" || level = "faculty" || level = "university"

/-- Strict comparison on the sort key used by `_get_active_admin_roles`:
`(-hierarchy, org_unit_name, division_name, id)`. -/
def roleKeyLT (r x : AdminRole) : Bool :=
  if adminLevelHierarchy r.role_level ≠ adminLevelHierarchy x.role_level then
    adminLevelHierarchy x.role_level < adminLevelHierarchy r.role_level
  else if r.org_unit_name ≠ x.org_unit_name then strLT r.org_unit_name x.org_unit_name
  else if r.division_name ≠ x.division_name then strLT r.division_name x.division_name
  else r.id < x.id

/-- Insertion step of the stable sort on role keys. -/
def insertRole (r : AdminRole) : List AdminRole → List AdminRole
  | [] => [r]
  | x :: xs => if roleKeyLT r x then r :: x :: xs else x :: insertRole r xs

/-- `_get_active_admin_roles`: the user's active roles, sorted by
`(-hierarchy, org_unit_name, division_name, id)`.  `roles` is the full list of
the user's `AdminRole` rows. -/
def getActiveAdminRoles (roles : List AdminRole) : List AdminRole :=
  (roles.filter (·.is_active)).foldr insertRole []

/-- `get_act_as_role`: the act-as role taken from the session, if valid;
otherwise, with several active roles, the auto-selected preferred role
(faculty first, then department, then university). -/
def get_act_as_role (sess : SessionState) (roles : List AdminRole) : Option AdminRole :=
  if sess.act_as_user_mode then none
  else
    let act := getActiveAdminRoles roles
    let preferred :=
      match act.find? (fun r => r.role_level = "faculty") with
      | some r => some r
      | none =>
        match act.find? (fun r => r.role_level = "department") with
        | some r => some r
        | none => act.find? (fun r => r.role_level = "university")
    match sess.act_as_role_id with
    | some rid => act.find? (fun r => r.id = rid)
    | none => if act.length > 1 then preferred else none

/-- `User.highest_admin_level`: the highest level among the user's active
roles, `"none"` when there is none. -/
def highestStep (acc : Nat × String) (r : AdminRole) : Nat × String :=
  if r.is_active then
    let level :=
      if r.role_level = "university" then 3
      else if r.role_level = "faculty" then 2
      else if r.role_level = "department" then 1
      else 0
    if acc.1 < level then (level, r.role_level) else acc
  else acc

/-- `User.highest_admin_level` over the user's `AdminRole` rows. -/
def highest_admin_level (roles : List AdminRole) : String :=
  (roles.foldl highestStep (0, "none")).2

/-- Effective admin context: `(level, act_as_role, user_mode)`. -/
structure EffectiveContext where
  level : String
  act_as_role : Option AdminRole
  user_mode : Bool
deriving DecidableEq

/-- `get_effective_context`. -/
def get_effective_context (sess : SessionState) (roles : List AdminRole) :
    EffectiveContext :=
  if sess.act_as_user_mode then ⟨"none", none, true⟩
  else
    let act_as_role := get_act_as_role sess roles
    let level :=
      match act_as_role with
      | some r => r.role_level
      | none => highest_admin_level roles
    let level := if isValidLevel level then level else "none"
    ⟨level, act_as_role, false⟩

/-- Scope id contributed by one role at the requested level (the Python loop
body of `get_role_scope_ids`). -/
def roleScopeContribution (role_level : String) (r : AdminRole) : List Nat :=
  if r.role_level ≠ role_level then []
  else if role_level = "faculty" then
    match r.organization_unit_id with
    | some u => [u]
    | none => []
  else if role_level = "department" then
    match r.division_id with
    | some d => [d]
    | none => []
  else []

/-- `get_role_scope_ids`: scope ids from `AdminRole` for the requested level. -/
def get_role_scope_ids (sess : SessionState) (roles : List AdminRole)
    (role_level : String) : List Nat :=
  let ctx := get_effective_context sess roles
  if ctx.user_mode then []
  else
    match ctx.act_as_role with
    | some r => roleScopeContribution role_level r
    | none =>
      let act := getActiveAdminRoles roles
      sortedUnique (act.foldl (fun acc r => acc ++ roleScopeContribution role_level r) [])

/-- Modelled from the spec: "scope_ids = the union of scope identifiers of all
active grants at that level" — department grants contribute their division,
faculty grants their unit, university grants nothing; presented as the sorted
list of distinct identifiers. -/
def specScopeUnion (roles : List AdminRole) (level : String) : List Nat :=
  sortedUnique
    ((roles.filter (fun r => r.is_active && r.role_level = level)).foldl
      (fun acc r => acc ++ roleScopeContribution level r) [])

/-! ## Approval action executor (`apply_approval_action` and the reject route)

The executor reads the item's mutable fields, the owner-derived workflow flags
and the actor's identity; it writes the new status plus metadata and appends
one `ApprovalLog` row.  Database access is modelled by passing the fetched
values explicitly; timestamps are abstract `Nat` instants.  Flash messages for
successful actions (display text built from titles and labels) are omitted;
the refusal error message is kept in the `error` field. -/

/-- Mutable approval fields of a `Publication` / `Project` / `OtherActivity`
row. -/
structure ItemState where
  approval_status : String
  is_approved : Bool
  approved_at : Option Nat
  approved_by : Option Nat
  rejection_reason : Option String
  returned_at : Option Nat
  returned_by_level : Option String
deriving DecidableEq

/-- One append-only `ApprovalLog` row (the numeric `item_id` is omitted: items
are passed to the model as field records without their row id). -/
structure ApprovalLogEntry where
  item_type : String
  action : String
  old_status : String
  new_status : String
  performed_by : Nat
  notes : Option String
deriving DecidableEq

/-- Inputs the executor derives from the database and request: whether the
owner row exists, the owner's office flag, the actor's scope permissions over
the owner, the owner's chain gap flags, `has_university_access(actor)`,
`effective_admin_level(actor)`, the actor id and the current time. -/
structure ActionEnv where
  owner_exists : Bool
  is_office : Bool
  can_university : Bool
  can_faculty : Bool
  can_department : Bool
  missing_department : Bool
  missing_faculty : Bool
  has_university_access : Bool
  actor_level : String
  actor_id : Nat
  now : Nat
deriving DecidableEq

/-- The `ApprovalContext` that `check_approval_chain` /
`resolve_next_approval_status` build for an item in this environment. -/
def envContext (item : ItemState) (env : ActionEnv) : ApprovalContext :=
  { current_status := item.approval_status
    is_office := env.is_office
    can_university := env.can_university
    can_faculty := env.can_faculty
    can_department := env.can_department
    missing_department_admin := env.missing_department
    missing_faculty_admin := env.missing_faculty }

/-- `can_return_item`: office owners are gated on `has_university_access`,
others on the scope permissions over the owner. -/
def can_return_item (env : ActionEnv) : Bool :=
  if env.is_office then
    approval_can_return true env.has_university_access false false false
  else
    approval_can_return false false env.can_university env.can_faculty env.can_department

/-- `_ACTION_MAP_BY_NEW_STATUS.get(new_status, "approve")`. -/
def actionMapByNewStatus (s : String) : String :=
  if s = "department_approved" then "department_approve"
  else if s = "faculty_approved" then "faculty_approve"
  else if s = "approved" then "university_approve"
  else "approve"

/-- Result of one executor call: the outcome flag and new status (the Python
`ApprovalActionResult`), the refusal message when refused, the updated item
row and the appended log rows. -/
structure ApprovalOutcome where
  ok : Bool
  new_status : Option String
  error : Option String
  item : ItemState
  logs : List ApprovalLogEntry
deriving DecidableEq

/-- `apply_approval_action`: apply "approve" / "reject" / "return" to an item. -/
def apply_approval_action (item : ItemState) (item_type : String)
    (action : String) (env : ActionEnv) (reason : Option String) :
    ApprovalOutcome :=
  if !env.owner_exists then
    ⟨false, none, some "Không tìm thấy chủ sở hữu công trình.", item, []⟩
  else
    let old_status := statusOrPending item.approval_status
    if action = "approve" then
      let decision := can_approve (envContext item env)
      if !decision.1 then ⟨false, none, some decision.2, item, []⟩
      else
        let ns := next_status (envContext item env)
        let item' : ItemState :=
          { item with approval_status := ns, rejection_reason := none, returned_at := none }
        let item' :=
          if ns = "approved" then
            { item' with is_approved := true, approved_at := some env.now,
                         approved_by := some env.actor_id }
          else item'
        ⟨true, some ns, none, item',
          [⟨item_type, actionMapByNewStatus ns, old_status, ns, env.actor_id, none⟩]⟩
    else if action = "reject" then
      let item' : ItemState :=
        { item with is_approved := false, approval_status := "pending",
                    approved_at := none, approved_by := none,
                    rejection_reason := none, returned_at := none,
                    returned_by_level := none }
      ⟨true, some "pending", none, item',
        [⟨item_type, "reject", old_status, "pending", env.actor_id, none⟩]⟩
    else if action = "return" then
      let r := pyStrip (reason.getD "")
      if r = "" then ⟨false, none, some "Vui lòng nhập lý do trả lại.", item, []⟩
      else if old_status = "approved" then
        ⟨false, none,
          some "Công trình đã được phê duyệt. Hãy dùng chức năng hủy duyệt.", item, []⟩
      else if !can_return_item env then
        ⟨false, none, some "Bạn không có quyền trả lại mục này.", item, []⟩
      else
        let item' : ItemState :=
          { item with is_approved := false, approval_status := "returned",
                      rejection_reason := some r, returned_at := some env.now,
                      approved_at := none, approved_by := none,
                      returned_by_level := some env.actor_level }
        ⟨true, some "returned", none, item',
          [⟨item_type, "return", old_status, "returned", env.actor_id, some r⟩]⟩
    else ⟨false, none, some "Hành động không hợp lệ.", item, []⟩

/-- The `admin_level_required(min_level)` route guard: authenticated, active,
not in plain-user mode, and effective admin rank at least the required rank. -/
def admin_level_required (authenticated active user_mode : Bool)
    (effective_level min_level : String) : Bool :=
  authenticated && active && !user_mode &&
    adminLevelHierarchy min_level ≤ adminLevelHierarchy effective_level

/-- The `reject_publication` route: `@university_admin_required` then
`apply_approval_action_by_id(action="reject")`.  `in_scope` says whether
`get_scoped_item_or_none` finds the item within the actor's working scope.
The result is `none` when the guard redirects the request away. -/
def reject_publication (authenticated active user_mode : Bool)
    (effective_level : String) (item : ItemState) (in_scope : Bool)
    (env : ActionEnv) : Option ApprovalOutcome :=
  if !admin_level_required authenticated active user_mode effective_level "university" then
    none
  else if !in_scope then
    some ⟨false, none, some "Mục này nằm ngoài phạm vi bạn đang làm việc.", item, []⟩
  else some (apply_approval_action item "publication" "reject" env none)

/-! ## Hours engine (`app/hours_calculator.py`) -/

/-- `HoursConfig`: the institutional point schedule. -/
structure HoursConfig where
  hours_journal_wos_scopus_q1_q2 : ℚ := 1800
  hours_journal_wos_scopus_q3_q4 : ℚ := 1400
  hours_journal_vnu_special : ℚ := 900
  hours_journal_rev : ℚ := 900
  hours_journal_international_reputable : ℚ := 900
  hours_journal_domestic_gte_1 : ℚ := 800
  hours_journal_domestic_gte_05 : ℚ := 600
  hours_journal_domestic_lt_05 : ℚ := 300
  hours_conference_wos_scopus : ℚ := 900
  hours_conference_international : ℚ := 600
  hours_conference_national : ℚ := 500
  hours_monograph_international : ℚ := 2700
  hours_monograph_domestic : ℚ := 1500
  hours_textbook_international : ℚ := 1800
  hours_textbook_domestic : ℚ := 900
  hours_book_chapter_reputable : ℚ := 1200
  hours_book_chapter_international : ℚ := 900
  hours_patent_international : ℚ := 3000
  hours_patent_vietnam : ℚ := 1800
  hours_utility_solution : ℚ := 1200
  hours_award_international : ℚ := 1800
  hours_award_national : ℚ := 1200
  hours_exhibition_international : ℚ := 900
  hours_exhibition_national : ℚ := 600
  hours_exhibition_provincial : ℚ := 400
  republished_book_max_ratio : ℚ := 1/3
  patent_stage_1_ratio : ℚ := 1/3
  patent_stage_2_ratio : ℚ := 2/3
  hours_project_national_total : ℚ := 1000
  hours_project_national_leader : ℚ := 500
  hours_project_national_secretary : ℚ := 250
  hours_project_national_member : ℚ := 250
  hours_project_vnu_total : ℚ := 800
  hours_project_vnu_leader : ℚ := 400
  hours_project_vnu_secretary : ℚ := 200
  hours_project_vnu_member : ℚ := 200
  hours_project_university_total : ℚ := 300
  hours_project_university_leader : ℚ := 300
  cooperation_base_hours : ℚ := 100
  cooperation_multiplier : ℚ := 1000
  cooperation_leader_ratio : ℚ := 1/2
  cooperation_secretary_ratio : ℚ := 1/4
  cooperation_member_ratio : ℚ := 1/4
  other_activity_max_hours_per_year : ℚ := 250
  hours_student_research_university : ℚ := 75
  hours_student_research_faculty : ℚ := 30
  hours_team_training : ℚ := 75
  hours_exhibition_product : ℚ := 45
deriving DecidableEq

/-- `DEFAULT_CONFIG`. -/
def DEFAULT_CONFIG : HoursConfig := {}

/-- The 22 publication type keys of the `get_base_hours` lookup table. -/
def knownPublicationTypes : List String :=
  ["journal_wos_scopus", "journal_vnu_special", "journal_rev",
   "journal_international_reputable", "journal_domestic",
   "conference_wos_scopus", "conference_international", "conference_national",
   "monograph_international", "monograph_domestic",
   "textbook_international", "textbook_domestic",
   "book_chapter_reputable", "book_chapter_international",
   "patent_international", "patent_vietnam", "utility_solution",
   "award_international", "award_national",
   "exhibition_international", "exhibition_national", "exhibition_provincial"]

/-- `get_base_hours`: base hours by publication type, refined by quartile,
domestic points, republication and patent stage. -/
def get_base_hours (publication_type : String) (quartile : Option String)
    (domestic_points : ℚ) (patent_stage : Option String)
    (is_republished : Bool) (config : HoursConfig) : ℚ :=
  let hours : ℚ :=
    if publication_type = "journal_wos_scopus" then
      if quartile = some "Q1" ∨ quartile = some "Q2" then
        config.hours_journal_wos_scopus_q1_q2
      else config.hours_journal_wos_scopus_q3_q4
    else if publication_type = "journal_vnu_special" then config.hours_journal_vnu_special
    else if publication_type = "journal_rev" then config.hours_journal_rev
    else if publication_type = "journal_international_reputable" then
      config.hours_journal_international_reputable
    else if publication_type = "journal_domestic" then
      if 1 ≤ domestic_points then config.hours_journal_domestic_gte_1
      else if 1/2 ≤ domestic_points then config.hours_journal_domestic_gte_05
      else config.hours_journal_domestic_lt_05
    else if publication_type = "conference_wos_scopus" then config.hours_conference_wos_scopus
    else if publication_type = "conference_international" then
      config.hours_conference_international
    else if publication_type = "conference_national" then config.hours_conference_national
    else if publication_type = "monograph_international" then
      config.hours_monograph_international
    else if publication_type = "monograph_domestic" then config.hours_monograph_domestic
    else if publication_type = "textbook_international" then
      config.hours_textbook_international
    else if publication_type = "textbook_domestic" then config.hours_textbook_domestic
    else if publication_type = "book_chapter_reputable" then
      config.hours_book_chapter_reputable
    else if publication_type = "book_chapter_international" then
      config.hours_book_chapter_international
    else if publication_type = "patent_international" then config.hours_patent_international
    else if publication_type = "patent_vietnam" then config.hours_patent_vietnam
    else if publication_type = "utility_solution" then config.hours_utility_solution
    else if publication_type = "award_international" then config.hours_award_international
    else if publication_type = "award_national" then config.hours_award_national
    else if publication_type = "exhibition_international" then
      config.hours_exhibition_international
    else if publication_type = "exhibition_national" then config.hours_exhibition_national
    else if publication_type = "exhibition_provincial" then
      config.hours_exhibition_provincial
    else 0
  let hours :=
    if is_republished ∧ publication_type ∈
        ["monograph_international", "monograph_domestic", "textbook_international",
         "textbook_domestic", "book_chapter_reputable", "book_chapter_international"] then
      hours * config.republished_book_max_ratio
    else hours
  if publication_type ∈ ["patent_international", "patent_vietnam", "utility_solution"] then
    if patent_stage = some "stage_1" then hours * config.patent_stage_1_ratio
    else if patent_stage = some "stage_2" then hours * config.patent_stage_2_ratio
    else 0
  else hours

/-- Python `contribution_percentage is not None and contribution_percentage > 0`. -/
def hasPositiveOverride (contribution_percentage : Option ℚ) : Bool :=
  match contribution_percentage with
  | some p => decide (0 < p)
  | none => false

/-- `calculate_author_hours`: author's share of the base hours by role, with an
optional positive contribution-percentage override. -/
def calculate_author_hours (base_hours : ℚ) (author_role : String)
    (total_authors : ℤ) (contribution_percentage : Option ℚ) : ℚ :=
  if base_hours ≤ 0 then 0
  else if hasPositiveOverride contribution_percentage then
    base_hours * (contribution_percentage.getD 0 / 100)
  else
    let total_authors := if total_authors ≤ 0 then 1 else total_authors
    let base_share := base_hours * (2/3) / (total_authors : ℚ)
    let role := pyLower (if author_role = "" then "middle" else author_role)
    let bonus_share : ℚ :=
      if role = "first_corresponding" then base_hours * (1/3)
      else if role = "first" ∨ role = "corresponding" then base_hours * (1/6)
      else 0
    base_share + bonus_share

/-- Hours-relevant fields of a `Publication` row. -/
structure Publication where
  publication_type : String
  quartile : Option String
  domestic_points : Option ℚ
  patent_stage : Option String
  is_republished : Option Bool
  author_role : Option String
  total_authors : Option ℤ
  contribution_percentage : Option ℚ
  year : ℤ
deriving DecidableEq

/-- `calculate_publication_hours`: `(base_hours, author_hours)`, rounded. -/
def calculate_publication_hours (pub : Publication) (config : HoursConfig) :
    ℚ × ℚ :=
  let base_hours := get_base_hours pub.publication_type pub.quartile
    (pub.domestic_points.getD 0) pub.patent_stage (pub.is_republished.getD false) config
  let author_hours := calculate_author_hours base_hours (pub.author_role.getD "middle")
    (pub.total_authors.getD 1) pub.contribution_percentage
  (round2 base_hours, round2 author_hours)

/-- Totals of `calculate_yearly_summary` (the per-type and per-quartile display
breakdowns are omitted). -/
structure YearlySummary where
  total_publications : ℕ
  total_base_hours : ℚ
  total_author_hours : ℚ
deriving DecidableEq

/-- `calculate_yearly_summary` over a publication list, optionally restricted
to one year. -/
def calculate_yearly_summary (publications : List Publication) (year : Option ℤ)
    (config : HoursConfig) : YearlySummary :=
  let publications :=
    match year with
    | some y => publications.filter (fun (p : Publication) => p.year = y)
    | none => publications
  let total_base_hours :=
    (publications.map (fun p => (calculate_publication_hours p config).1)).sum
  let total_author_hours :=
    (publications.map (fun p => (calculate_publication_hours p config).2)).sum
  ⟨publications.length, round2 total_base_hours, round2 total_author_hours⟩

/-- Hours-relevant fields of a `Project` row. -/
structure Project where
  project_level : String
  role : String
  funding_amount : Option ℚ
  duration_years : Option ℤ
  status : Option String
  total_members : Option ℤ
  start_year : ℤ
  end_year : ℤ
deriving DecidableEq

/-- Output of `calculate_project_hours`. -/
structure ProjectHours where
  total_hours : ℚ
  user_hours : ℚ
  leader_hours : ℚ
  secretary_hours : ℚ
  member_pool_hours : ℚ
  member_each_hours : ℚ
  other_members_count : ℤ
deriving DecidableEq

/-- `calculate_project_hours`: project totals and role shares; the member cell
of the schedule is the pool for all other members, divided evenly. -/
def calculate_project_hours (project_level role : String) (funding_amount : ℚ)
    (duration_years : ℤ) (status : String) (total_members : ℤ)
    (config : HoursConfig) : ProjectHours :=
  if status = "extended" then ⟨0, 0, 0, 0, 0, 0, 0⟩
  else
    let totals : ℚ × ℚ × ℚ × ℚ :=
      if project_level = "national" then
        (config.hours_project_national_total, config.hours_project_national_leader,
         config.hours_project_national_secretary, config.hours_project_national_member)
      else if project_level = "vnu_ministry" then
        (config.hours_project_vnu_total, config.hours_project_vnu_leader,
         config.hours_project_vnu_secretary, config.hours_project_vnu_member)
      else if project_level = "university" then
        (config.hours_project_university_total, config.hours_project_university_leader, 0, 0)
      else if project_level = "cooperation" then
        let duration_years := if duration_years ≤ 0 then 1 else duration_years
        let total := config.cooperation_base_hours +
          config.cooperation_multiplier * funding_amount / (duration_years : ℚ)
        (total, total * config.cooperation_leader_ratio,
         total * config.cooperation_secretary_ratio, total * config.cooperation_member_ratio)
      else (0, 0, 0, 0)
    let total_hours := totals.1
    let leader_hours := totals.2.1
    let secretary_hours := totals.2.2.1
    let member_pool_hours := totals.2.2.2
    let other_members_count : ℤ :=
      if project_level = "university" then 0 else max 0 (total_members - 2)
    let member_each_hours : ℚ :=
      if 0 < other_members_count ∧ 0 < member_pool_hours then
        member_pool_hours / (other_members_count : ℚ)
      else 0
    let user_hours :=
      if role = "leader" then leader_hours
      else if role = "secretary" then secretary_hours
      else member_each_hours
    ⟨round2 total_hours, round2 user_hours, round2 leader_hours, round2 secretary_hours,
     round2 member_pool_hours, round2 member_each_hours, other_members_count⟩

/-- `calculate_project_hours_from_model`. -/
def calculate_project_hours_from_model (project : Project) (config : HoursConfig) :
    ProjectHours :=
  calculate_project_hours project.project_level project.role
    (project.funding_amount.getD 0) (project.duration_years.getD 1)
    (project.status.getD "completed") (project.total_members.getD 1) config

/-- `calculate_project_hours_per_year`: cooperation projects already yield
hours per year; graded tiers divide evenly over the inclusive year span. -/
def calculate_project_hours_per_year (project : Project) (config : HoursConfig) : ℚ :=
  let user_hours := (calculate_project_hours_from_model project config).user_hours
  if user_hours = 0 then 0
  else if project.project_level = "cooperation" then round2 user_hours
  else
    let span_years := max 1 (project.end_year - project.start_year + 1)
    round2 (user_hours / (span_years : ℚ))

/-- Hours-relevant fields of an `OtherActivity` row. -/
structure OtherActivity where
  activity_type : String
  quantity : Option ℤ
  year : ℤ
deriving DecidableEq

/-- `calculate_other_activity_hours`: a fixed per-unit rate times quantity. -/
def calculate_other_activity_hours (activity_type : String) (quantity : ℤ)
    (config : HoursConfig) : ℚ :=
  let hours_per_unit : ℚ :=
    if activity_type = "student_research_university" then
      config.hours_student_research_university
    else if activity_type = "student_research_faculty" then
      config.hours_student_research_faculty
    else if activity_type = "team_training" then config.hours_team_training
    else if activity_type = "exhibition_product" then config.hours_exhibition_product
    else 0
  round2 (hours_per_unit * (quantity : ℚ))

/-- `calculate_other_activity_hours_from_model`. -/
def calculate_other_activity_hours_from_model (activity : OtherActivity)
    (config : HoursConfig) : ℚ :=
  calculate_other_activity_hours activity.activity_type (activity.quantity.getD 1) config

/-- The raw (pre-cap) sum of the year's other-activity hours. -/
def yearlyOtherRawHours (activities : List OtherActivity) (year : ℤ)
    (config : HoursConfig) : ℚ :=
  ((activities.filter (fun a => a.year = year)).map
    (fun a => calculate_other_activity_hours_from_model a config)).sum

/-- Output of `calculate_yearly_other_activities_total` (the per-type display
breakdown is omitted). -/
structure YearlyOtherTotal where
  total_raw_hours : ℚ
  capped_hours : ℚ
  is_capped : Bool
  activity_count : ℕ
deriving DecidableEq

/-- `calculate_yearly_other_activities_total`: the year's sum capped at the
configured annual ceiling. -/
def calculate_yearly_other_activities_total (activities : List OtherActivity)
    (year : ℤ) (config : HoursConfig) : YearlyOtherTotal :=
  let total_raw_hours := yearlyOtherRawHours activities year config
  let capped_hours := min total_raw_hours config.other_activity_max_hours_per_year
  ⟨round2 total_raw_hours, round2 capped_hours,
   decide (config.other_activity_max_hours_per_year < total_raw_hours),
   ((activities.filter (fun a => a.year = year)).length)⟩

/-- Output of `calculate_total_research_hours`. -/
structure TotalResearchHours where
  publication_hours : ℚ
  publication_count : ℕ
  project_hours : ℚ
  project_count : ℕ
  other_activity_hours : ℚ
  total_hours : ℚ
deriving DecidableEq

/-- `calculate_total_research_hours`: publications + amortized projects +
capped other activities, for one year or for all years. -/
def calculate_total_research_hours (publications : List Publication)
    (projects : List Project) (other_activities : List OtherActivity)
    (year : Option ℤ) (config : HoursConfig) : TotalResearchHours :=
  let pub_summary := calculate_yearly_summary publications year config
  let year_projects :=
    match year with
    | some y => projects.filter (fun (p : Project) => p.start_year ≤ y ∧ y ≤ p.end_year)
    | none => projects
  let project_hours :=
    match year with
    | some _ =>
      (year_projects.map (fun p => calculate_project_hours_per_year p config)).sum
    | none =>
      (year_projects.map
        (fun p => (calculate_project_hours_from_model p config).user_hours)).sum
  let other_hours :=
    match year with
    | some y => (calculate_yearly_other_activities_total other_activities y config).capped_hours
    | none =>
      ((sortedUnique (other_activities.map (·.year))).map
        (fun y => (calculate_yearly_other_activities_total other_activities y config).capped_hours)).sum
  let total_hours := pub_summary.total_author_hours + project_hours + other_hours
  ⟨pub_summary.total_author_hours, pub_summary.total_publications,
   round2 project_hours, year_projects.length, round2 other_hours, round2 total_hours⟩

/-! ## Theorems -/

/-- C1: for every non-office owner whose approval chain is fully staffed
(`missing_department` and `missing_faculty` both false), each permitted
approve advances the status exactly one step along
pending → department_approved → faculty_approved → approved: from pending the
next status is department_approved and requires can_department; from
department_approved it is faculty_approved and requires can_faculty; from
faculty_approved it is approved and requires can_university; no other
combination is allowed. -/
theorem approve_single_step_when_fully_staffed (ctx : ApprovalContext)
    (hoff : ctx.is_office = false)
    (hmd : ctx.missing_department_admin = false)
    (hmf : ctx.missing_faculty_admin = false) :
    ((can_approve ctx).1 = true ↔
      ((statusOrPending ctx.current_status = "pending" ∧ ctx.can_department = true) ∨
       (statusOrPending ctx.current_status = "department_approved" ∧ ctx.can_faculty = true) ∨
       (statusOrPending ctx.current_status = "faculty_approved" ∧ ctx.can_university = true))) ∧
    ((can_approve ctx).1 = true →
      statusIdx (next_status ctx) = statusIdx (statusOrPending ctx.current_status) + 1) ∧
    (statusOrPending ctx.current_status = "pending" → ctx.can_department = true →
      next_status ctx = "department_approved") ∧
    (statusOrPending ctx.current_status = "department_approved" → ctx.can_faculty = true →
      next_status ctx = "faculty_approved") ∧
    (statusOrPending ctx.current_status = "faculty_approved" → ctx.can_university = true →
      next_status ctx = "approved") := by
  obtain ⟨s, off, cu, cf, cd, md, mf⟩ := ctx
  dsimp only at hoff hmd hmf
  subst hoff; subst hmd; subst hmf
  by_cases h1 : statusOrPending s = "pending" <;>
    by_cases h2 : statusOrPending s = "department_approved" <;>
      by_cases h3 : statusOrPending s = "faculty_approved" <;>
        cases cu <;> cases cf <;> cases cd <;>
          simp_all [can_approve, next_status, statusIdx]

/-- C1 witness: a department admin approving a pending item of a fully staffed
chain moves it to department_approved. -/
theorem approve_single_step_when_fully_staffed_witness :
    (⟨"pending", false, false, false, true, false, false⟩ : ApprovalContext).is_office
        = false ∧
    next_status ⟨"pending", false, false, false, true, false, false⟩
        = "department_approved" :=
  ⟨rfl,
    (approve_single_step_when_fully_staffed
        ⟨"pending", false, false, false, true, false, false⟩ rfl rfl rfl).2.2.1 rfl rfl⟩

/-- C2: for every non-office decision input, one approve never skips more
levels than the gap flags report vacant: the status index advances by at most
1 plus the number of vacant levels, a faculty-level approve from pending
requires missing_department, a university-level approve from pending requires
both missing_department and missing_faculty, and a university-level approve
from department_approved requires missing_faculty. -/
theorem approve_skips_at_most_vacant_levels (ctx : ApprovalContext)
    (hoff : ctx.is_office = false) :
    (statusIdx (next_status ctx)
        ≤ statusIdx (statusOrPending ctx.current_status) + 1 + vacantCount ctx) ∧
    (statusOrPending ctx.current_status = "pending" →
      action_level ctx = some "faculty" →
      next_status ctx = "faculty_approved" ∧ ctx.missing_department_admin = true) ∧
    (statusOrPending ctx.current_status = "pending" →
      action_level ctx = some "university" →
      next_status ctx = "approved" ∧ ctx.missing_department_admin = true ∧
        ctx.missing_faculty_admin = true) ∧
    (statusOrPending ctx.current_status = "department_approved" →
      action_level ctx = some "university" →
      next_status ctx = "approved" ∧ ctx.missing_faculty_admin = true) := by
  obtain ⟨s, off, cu, cf, cd, md, mf⟩ := ctx
  dsimp only at hoff
  subst hoff
  by_cases h1 : statusOrPending s = "pending" <;>
    by_cases h2 : statusOrPending s = "department_approved" <;>
      by_cases h3 : statusOrPending s = "faculty_approved" <;>
        cases cu <;> cases cf <;> cases cd <;> cases md <;> cases mf <;>
          simp_all [can_approve, next_status, action_level, statusIdx, vacantCount] <;>
            omega

/-- C2 witness: a faculty admin approving a pending item whose department
level is vacant skips exactly that one vacant level. -/
theorem approve_skips_at_most_vacant_levels_witness :
    (⟨"pending", false, false, true, false, true, false⟩ : ApprovalContext).is_office
        = false ∧
    (next_status ⟨"pending", false, false, true, false, true, false⟩ = "faculty_approved" ∧
      (⟨"pending", false, false, true, false, true, false⟩ :
          ApprovalContext).missing_department_admin = true) :=
  ⟨rfl,
    (approve_skips_at_most_vacant_levels
        ⟨"pending", false, false, true, false, true, false⟩ rfl).2.1 rfl rfl⟩

/-- C3 counterexample: the return branch of `apply_approval_action` never
checks for `draft`.  A university admin returning a draft item of a non-office
owner, with a non-empty reason, succeeds and the item becomes returned —
against the claim that a return is refused when the current status is draft. -/
theorem return_of_draft_succeeds :
    (apply_approval_action ⟨"draft", false, none, none, none, none, none⟩
        "publication" "return"
        ⟨true, false, true, false, false, false, false, true, "university", 9, 0⟩
        (some " can sua lai ")).ok = true ∧
    (apply_approval_action ⟨"draft", false, none, none, none, none, none⟩
        "publication" "return"
        ⟨true, false, true, false, false, false, false, true, "university", 9, 0⟩
        (some " can sua lai ")).item.approval_status = "returned" := by
  decide

/-- C3 (amended): a return action succeeds if and only if the stripped reason
is non-empty, the current status is not approved (draft is NOT excluded), and
the actor has matching scope access (for an office owner only university-level
access counts, otherwise any of university / faculty / department scope access
over the owner suffices); a missing or empty reason is refused as a validation
error, and on success the status becomes returned with the stripped reason
recorded. -/
theorem return_action_characterization (item : ItemState) (item_type : String)
    (env : ActionEnv) (reason : Option String)
    (hown : env.owner_exists = true) :
    ((apply_approval_action item item_type "return" env reason).ok = true ↔
      (pyStrip (reason.getD "") ≠ "" ∧
        statusOrPending item.approval_status ≠ "approved" ∧
        can_return_item env = true)) ∧
    (pyStrip (reason.getD "") = "" →
      (apply_approval_action item item_type "return" env reason).error
        = some "Vui lòng nhập lý do trả lại.") ∧
    ((apply_approval_action item item_type "return" env reason).ok = true →
      (apply_approval_action item item_type "return" env reason).item.approval_status
          = "returned" ∧
      (apply_approval_action item item_type "return" env reason).item.rejection_reason
          = some (pyStrip (reason.getD ""))) ∧
    (can_return_item env =
      if env.is_office then env.has_university_access
      else env.can_university || env.can_faculty || env.can_department) := by
  obtain ⟨oe, off, cu, cf, cd, md, mf, hua, lvl, aid, now⟩ := env
  dsimp only at hown
  subst hown
  by_cases hr : pyStrip (reason.getD "") = "" <;>
    by_cases hs : statusOrPending item.approval_status = "approved" <;>
      cases off <;> cases cu <;> cases cf <;> cases cd <;> cases hua <;>
        simp_all [apply_approval_action, can_return_item, approval_can_return, can_return]

/-- C3 witness: a department admin returning a pending item with a reason. -/
theorem return_action_characterization_witness :
    (⟨true, false, false, false, true, false, false, false, "department", 4, 0⟩ :
        ActionEnv).owner_exists = true ∧
    (apply_approval_action ⟨"pending", false, none, none, none, none, none⟩
        "publication" "return"
        ⟨true, false, false, false, true, false, false, false, "department", 4, 0⟩
        (some " thieu minh chung ")).ok = true :=
  ⟨rfl,
    ((return_action_characterization ⟨"pending", false, none, none, none, none, none⟩
        "publication"
        ⟨true, false, false, false, true, false, false, false, "department", 4, 0⟩
        (some " thieu minh chung ") rfl).1).mpr (by decide)⟩

/-- C4 counterexample: the reject branch of `apply_approval_action` never
checks the current status, and the `reject_publication` route only checks the
university guard.  A university admin rejecting an item whose status is
returned (not approved) succeeds and the item is reset to pending — against
the claim that a reject is legal only when the current status is approved. -/
theorem reject_of_returned_succeeds :
    reject_publication true true false "university"
        ⟨"returned", false, none, none, some "thieu ho so", some 5, some "faculty"⟩ true
        ⟨true, false, true, false, false, false, false, true, "university", 9, 0⟩
      = some ⟨true, some "pending", none,
          ⟨"pending", false, none, none, none, none, none⟩,
          [⟨"publication", "reject", "returned", "pending", 9, none⟩]⟩ := by
  decide

/-- C4 (amended): the reject action is gated only by the university-level route
guard, not by the current status: whenever the guard passes and the item is in
scope, it runs from any current status, unconditionally resets the status to
pending and clears all approval and rejection metadata (is_approved,
approved_at, approved_by, rejection_reason, returned_at, returned_by_level);
when the actor's effective level ranks below university the guard refuses. -/
theorem reject_characterization (item : ItemState) (env : ActionEnv)
    (authenticated active user_mode : Bool) (effective_level : String)
    (hguard : admin_level_required authenticated active user_mode effective_level
        "university" = true)
    (hown : env.owner_exists = true) :
    reject_publication authenticated active user_mode effective_level item true env
      = some ⟨true, some "pending", none,
          { item with
              is_approved := false
              approval_status := "pending"
              approved_at := none
              approved_by := none
              rejection_reason := none
              returned_at := none
              returned_by_level := none },
          [⟨"publication", "reject", statusOrPending item.approval_status, "pending",
            env.actor_id, none⟩]⟩ ∧
    (∀ level2 : String, adminLevelHierarchy level2 < 3 →
      reject_publication authenticated active user_mode level2 item true env = none) := by
  obtain ⟨oe, off, cu, cf, cd, md, mf, hua, lvl, aid, now⟩ := env
  dsimp only at hown
  subst hown
  constructor
  · simp [reject_publication, hguard, apply_approval_action]
  · intro level2 hlt
    simp [reject_publication, admin_level_required, adminLevelHierarchy] at hlt ⊢
    omega

/-- C4 witness: a university admin rejecting an approved in-scope item. -/
theorem reject_characterization_witness :
    admin_level_required true true false "university" "university" = true ∧
    reject_publication true true false "university"
        ⟨"approved", true, some 11, some 9, none, none, none⟩ true
        ⟨true, false, true, false, false, false, false, true, "university", 9, 12⟩
      = some ⟨true, some "pending", none,
          ⟨"pending", false, none, none, none, none, none⟩,
          [⟨"publication", "reject", "approved", "pending", 9, none⟩]⟩ :=
  ⟨rfl,
    (reject_characterization ⟨"approved", true, some 11, some 9, none, none, none⟩
        ⟨true, false, true, false, false, false, false, true, "university", 9, 12⟩
        true true false "university" rfl rfl).1⟩

/-- `highest_admin_level` only looks at active roles. -/
theorem foldl_highestStep_filter (roles : List AdminRole) (acc : Nat × String) :
    roles.foldl highestStep acc = (roles.filter (·.is_active)).foldl highestStep acc := by
  induction roles generalizing acc with
  | nil => rfl
  | cons r rs ih =>
    by_cases h : r.is_active <;>
      simp [List.filter_cons, h, List.foldl_cons, highestStep, ih]

/-- The `specScopeUnion` filter splits into the activity filter followed by the
level filter. -/
theorem filter_active_level (roles : List AdminRole) (level : String) :
    roles.filter (fun r => r.is_active && r.role_level = level)
      = (roles.filter (·.is_active)).filter (fun r => r.role_level = level) := by
  induction roles with
  | nil => rfl
  | cons r rs ih =>
    by_cases h : r.is_active <;> by_cases h2 : r.role_level = level <;>
      simp [List.filter_cons, h, h2, ih]

/-- C5 counterexample: an actor with several active grants and no chosen
override is auto-locked to the preferred grant, not to the highest level with
unioned scope.  With a university grant plus a faculty grant the resolver
returns faculty although the highest level is university, and with two faculty
grants it returns only the first grant's unit instead of the union. -/
theorem resolver_multi_grant_not_highest_union :
    (get_effective_context ⟨false, none⟩
        [⟨1, "university", none, none, true, "", ""⟩,
         ⟨2, "faculty", some 7, none, true, "K1", ""⟩]).level = "faculty" ∧
    highest_admin_level
        [⟨1, "university", none, none, true, "", ""⟩,
         ⟨2, "faculty", some 7, none, true, "K1", ""⟩] = "university" ∧
    get_role_scope_ids ⟨false, none⟩
        [⟨1, "faculty", some 3, none, true, "K1", ""⟩,
         ⟨2, "faculty", some 7, none, true, "K2", ""⟩] "faculty" = [3] ∧
    specScopeUnion
        [⟨1, "faculty", some 3, none, true, "K1", ""⟩,
         ⟨2, "faculty", some 7, none, true, "K2", ""⟩] "faculty" = [3, 7] := by
  decide

/-- C5 (amended): for an actor not in plain-user mode, with no active-role
override chosen, and holding AT MOST ONE active grant, the resolver returns
effective_level equal to the highest level among the active grants and
scope_ids equal to the union of the scope identifiers of the active grants at
that level.  (With several active grants the resolver instead auto-selects the
preferred grant — faculty, then department, then university — and locks level
and scope to it, as the counterexample shows.) -/
theorem resolver_single_grant_highest_level_union_scope (roles : List AdminRole)
    (hvalid : ∀ r ∈ roles, r.role_level = "department" ∨ r.role_level = "faculty" ∨
      r.role_level = "university")
    (hcount : (roles.filter (·.is_active)).length ≤ 1) :
    (get_effective_context ⟨false, none⟩ roles).level = highest_admin_level roles ∧
    get_role_scope_ids ⟨false, none⟩ roles (highest_admin_level roles)
      = specScopeUnion roles (highest_admin_level roles) := by
  match hf : roles.filter (·.is_active) with
  | r :: r2 :: rest =>
    rw [hf] at hcount
    simp at hcount
  | [] =>
    have hh : highest_admin_level roles = "none" := by
      unfold highest_admin_level
      rw [foldl_highestStep_filter, hf]
      rfl
    have hacts : getActiveAdminRoles roles = [] := by
      unfold getActiveAdminRoles
      rw [hf]
      rfl
    have haa : get_act_as_role ⟨false, none⟩ roles = none := by
      unfold get_act_as_role
      simp [hacts]
    constructor
    · simp [get_effective_context, haa, hh, isValidLevel]
    · simp [get_role_scope_ids, get_effective_context, haa, hacts, hh,
        specScopeUnion, filter_active_level, hf, sortedUnique]
  | [r] =>
    have hmem : r ∈ roles.filter (·.is_active) := by
      rw [hf]
      exact List.mem_singleton_self r
    have hact : r.is_active = true := by
      simpa using (List.mem_filter.mp hmem).2
    have hrin : r ∈ roles := (List.mem_filter.mp hmem).1
    have hlv := hvalid r hrin
    have hh : highest_admin_level roles = r.role_level := by
      unfold highest_admin_level
      rw [foldl_highestStep_filter, hf]
      rcases hlv with h | h | h <;> simp [List.foldl_cons, highestStep, hact, h]
    have hacts : getActiveAdminRoles roles = [r] := by
      unfold getActiveAdminRoles
      rw [hf]
      rfl
    have haa : get_act_as_role ⟨false, none⟩ roles = none := by
      unfold get_act_as_role
      simp [hacts]
    constructor
    · rcases hlv with h | h | h <;>
        simp [get_effective_context, haa, hh, isValidLevel, h]
    · simp [get_role_scope_ids, get_effective_context, haa, hacts, hh,
        specScopeUnion, filter_active_level, hf]

/-- C5 witness: a single active faculty grant (plus an inactive department
grant) resolves to the faculty level with that grant's unit as scope. -/
theorem resolver_single_grant_witness :
    ((([⟨1, "faculty", some 3, none, true, "K1", ""⟩,
        ⟨2, "department", none, some 5, false, "K1", "B1"⟩] :
          List AdminRole).filter (·.is_active)).length ≤ 1) ∧
    (get_effective_context ⟨false, none⟩
        [⟨1, "faculty", some 3, none, true, "K1", ""⟩,
         ⟨2, "department", none, some 5, false, "K1", "B1"⟩]).level
      = highest_admin_level
          [⟨1, "faculty", some 3, none, true, "K1", ""⟩,
           ⟨2, "department", none, some 5, false, "K1", "B1"⟩] :=
  ⟨by decide,
    (resolver_single_grant_highest_level_union_scope
        [⟨1, "faculty", some 3, none, true, "K1", ""⟩,
         ⟨2, "department", none, some 5, false, "K1", "B1"⟩]
        (by decide) (by decide)).1⟩

/-! Rounding helper lemmas. -/

/-- Rounding an integer changes nothing. -/
theorem roundHalfEven_intCast (n : ℤ) : roundHalfEven (n : ℚ) = n := by
  simp only [roundHalfEven, Int.floor_intCast]
  norm_num

/-- `round2 0 = 0`. -/
theorem round2_zero : round2 0 = 0 := by
  unfold round2
  rw [zero_mul, show (0 : ℚ) = ((0 : ℤ) : ℚ) by norm_num, roundHalfEven_intCast]
  norm_num

/-- `round2` is idempotent. -/
theorem round2_round2 (x : ℚ) : round2 (round2 x) = round2 x := by
  unfold round2
  rw [div_mul_cancel₀ _ (by norm_num : (100 : ℚ) ≠ 0), roundHalfEven_intCast]

/-- Rounding cannot push a value above an integer bound. -/
theorem roundHalfEven_le_of_le (y : ℚ) (n : ℤ) (h : y ≤ (n : ℚ)) :
    roundHalfEven y ≤ n := by
  have hf : ⌊y⌋ ≤ n := by
    have h2 := Int.floor_le_floor h
    simpa using h2
  have hfl : (⌊y⌋ : ℚ) ≤ y := Int.floor_le y
  unfold roundHalfEven
  split_ifs with h1 h2 h3
  · exact hf
  · have h4 : (⌊y⌋ : ℚ) < (n : ℚ) := by linarith
    have h5 : ⌊y⌋ < n := by exact_mod_cast h4
    omega
  · exact hf
  · have he : y - (⌊y⌋ : ℚ) = 1/2 := le_antisymm (not_lt.mp h2) (not_lt.mp h1)
    have h4 : (⌊y⌋ : ℚ) < (n : ℚ) := by linarith
    have h5 : ⌊y⌋ < n := by exact_mod_cast h4
    omega

/-- The user-hours share of `calculate_project_hours` is already rounded. -/
theorem project_user_hours_round2 (project_level role : String) (funding : ℚ)
    (duration : ℤ) (status : String) (members : ℤ) (config : HoursConfig) :
    round2 ((calculate_project_hours project_level role funding duration status
        members config).user_hours)
      = (calculate_project_hours project_level role funding duration status
          members config).user_hours := by
  unfold calculate_project_hours
  by_cases h : status = "extended" <;> simp [h, round2_zero, round2_round2]

/-- C6: with positive base hours and no positive contribution override, the
credited author hours equal base × (2/3) / total_authors plus a bonus of
base/6 for the first or the corresponding role, base/3 for the combined
first_corresponding role, and no bonus for a middle author; a positive
contribution percentage replaces the whole split with base × percentage/100. -/
theorem author_hours_split (b : ℚ) (n : ℤ) (hb : 0 < b) (hn : 0 < n) :
    (∀ pct : Option ℚ, (∀ p, pct = some p → p ≤ 0) →
      calculate_author_hours b "first" n pct = b * (2/3) / (n : ℚ) + b * (1/6) ∧
      calculate_author_hours b "corresponding" n pct = b * (2/3) / (n : ℚ) + b * (1/6) ∧
      calculate_author_hours b "first_corresponding" n pct
        = b * (2/3) / (n : ℚ) + b * (1/3) ∧
      calculate_author_hours b "middle" n pct = b * (2/3) / (n : ℚ)) ∧
    (∀ (p : ℚ) (role : String), 0 < p →
      calculate_author_hours b role n (some p) = b * (p / 100)) := by
  have l1 : pyLower "first" = "first" := by decide
  have l2 : pyLower "corresponding" = "corresponding" := by decide
  have l3 : pyLower "first_corresponding" = "first_corresponding" := by decide
  have l4 : pyLower "middle" = "middle" := by decide
  have hb' : ¬ (b ≤ 0) := not_le.mpr hb
  have hn' : ¬ (n ≤ 0) := not_le.mpr hn
  constructor
  · intro pct hpct
    have hdec : hasPositiveOverride pct = false := by
      cases pct with
      | none => rfl
      | some p => simpa [hasPositiveOverride] using not_lt.mpr (hpct p rfl)
    refine ⟨?_, ?_, ?_, ?_⟩ <;>
      simp [calculate_author_hours, hb', hn', hdec, l1, l2, l3, l4]
  · intro p role hp
    simp [calculate_author_hours, hasPositiveOverride, hb', hp]

/-- C6 witness: base 1800, four authors, first author, no override. -/
theorem author_hours_split_witness :
    (0 : ℚ) < 1800 ∧ (0 : ℤ) < 4 ∧
    calculate_author_hours 1800 "first" 4 none
      = 1800 * (2/3) / ((4 : ℤ) : ℚ) + 1800 * (1/6) :=
  ⟨by norm_num, by decide,
    ((author_hours_split 1800 4 (by norm_num) (by decide)).1 none (by simp)).1⟩

/-- C7: for a cooperation-tier project the total is 100 + 1000 × funding /
duration_years and the single-year credit is the role share unchanged (no
further division), while for the three graded tiers the single-year credit is
the role share divided evenly over the inclusive span [start_year, end_year]. -/
theorem cooperation_formula_and_amortization :
    (∀ (f : ℚ) (d : ℤ) (role status : String) (m : ℤ),
      status ≠ "extended" → 0 < d →
      (calculate_project_hours "cooperation" role f d status m
          DEFAULT_CONFIG).total_hours = round2 (100 + 1000 * f / (d : ℚ)) ∧
      (calculate_project_hours "cooperation" "leader" f d status m
          DEFAULT_CONFIG).user_hours = round2 ((100 + 1000 * f / (d : ℚ)) * (1/2))) ∧
    (∀ p : Project, p.project_level = "cooperation" →
      calculate_project_hours_per_year p DEFAULT_CONFIG
        = (calculate_project_hours_from_model p DEFAULT_CONFIG).user_hours) ∧
    (∀ p : Project,
      p.project_level = "national" ∨ p.project_level = "vnu_ministry" ∨
        p.project_level = "university" →
      calculate_project_hours_per_year p DEFAULT_CONFIG
        = round2 ((calculate_project_hours_from_model p DEFAULT_CONFIG).user_hours
            / ((max 1 (p.end_year - p.start_year + 1) : ℤ) : ℚ))) := by
  refine ⟨?_, ?_, ?_⟩
  · intro f d role status m hstat hd
    have hd' : ¬ (d ≤ 0) := not_le.mpr hd
    constructor <;> simp [calculate_project_hours, DEFAULT_CONFIG, hstat, hd']
  · intro p hl
    by_cases hu : (calculate_project_hours_from_model p DEFAULT_CONFIG).user_hours = 0
    · simp [calculate_project_hours_per_year, hu]
    · simp only [calculate_project_hours_per_year, hu, if_neg hu, hl, if_pos rfl,
        if_true]
      unfold calculate_project_hours_from_model
      exact project_user_hours_round2 _ _ _ _ _ _ _
  · intro p hl
    have hlc : p.project_level ≠ "cooperation" := by
      rcases hl with h | h | h <;> simp [h]
    by_cases hu : (calculate_project_hours_from_model p DEFAULT_CONFIG).user_hours = 0
    · simp [calculate_project_hours_per_year, hu, round2_zero]
    · simp [calculate_project_hours_per_year, hu, hlc]

/-- C7 witness: scenario C, funding 2 (billions), two years, leader. -/
theorem cooperation_formula_and_amortization_witness :
    ("completed" : String) ≠ "extended" ∧ (0 : ℤ) < 2 ∧
    (calculate_project_hours "cooperation" "leader" 2 2 "completed" 1
        DEFAULT_CONFIG).total_hours = round2 (100 + 1000 * 2 / ((2 : ℤ) : ℚ)) :=
  ⟨by decide, by decide,
    (cooperation_formula_and_amortization.1 2 2 "leader" "completed" 1
        (by decide) (by decide)).1⟩

/-- C8: each year's reported capped_hours never exceeds the configured annual
ceiling, is_capped holds exactly when the raw pre-cap sum strictly exceeds the
ceiling, and the all-years aggregate sums each year's already-capped figure
rather than capping the grand total. -/
theorem activity_cap_characterization (activities : List OtherActivity)
    (year : ℤ) (config : HoursConfig)
    (hc : ∃ n : ℤ, config.other_activity_max_hours_per_year * 100 = (n : ℚ)) :
    (calculate_yearly_other_activities_total activities year config).capped_hours
        ≤ config.other_activity_max_hours_per_year ∧
    ((calculate_yearly_other_activities_total activities year config).is_capped = true ↔
      config.other_activity_max_hours_per_year
        < yearlyOtherRawHours activities year config) ∧
    (∀ (publications : List Publication) (projects : List Project),
      (calculate_total_research_hours publications projects activities none
          config).other_activity_hours
        = round2 (((sortedUnique (activities.map (·.year))).map
            (fun y => (calculate_yearly_other_activities_total activities y
                config).capped_hours)).sum)) := by
  refine ⟨?_, ?_, ?_⟩
  · obtain ⟨n, hn⟩ := hc
    have hmin : min (yearlyOtherRawHours activities year config)
        config.other_activity_max_hours_per_year * 100 ≤ (n : ℚ) := by
      rw [← hn]
      have h1 : min (yearlyOtherRawHours activities year config)
          config.other_activity_max_hours_per_year
            ≤ config.other_activity_max_hours_per_year := min_le_right _ _
      nlinarith
    have h2 := roundHalfEven_le_of_le _ n hmin
    have h3 : ((roundHalfEven (min (yearlyOtherRawHours activities year config)
        config.other_activity_max_hours_per_year * 100) : ℚ)) / 100
          ≤ (n : ℚ) / 100 := by
      apply div_le_div_of_nonneg_right ?_ (by norm_num)
      exact_mod_cast h2
    have h4 : (n : ℚ) / 100 = config.other_activity_max_hours_per_year := by
      rw [← hn]
      ring
    simpa [calculate_yearly_other_activities_total, round2, h4] using h3
  · simp [calculate_yearly_other_activities_total]
  · intro publications projects
    rfl

/-- C8 witness: four 75-hour records in one year under the default 250-hour
ceiling stay at or below the ceiling. -/
theorem activity_cap_characterization_witness :
    (∃ n : ℤ, DEFAULT_CONFIG.other_activity_max_hours_per_year * 100 = (n : ℚ)) ∧
    (calculate_yearly_other_activities_total
        [⟨"student_research_university", some 1, 2024⟩,
         ⟨"student_research_university", some 1, 2024⟩,
         ⟨"student_research_university", some 1, 2024⟩,
         ⟨"student_research_university", some 1, 2024⟩] 2024
        DEFAULT_CONFIG).capped_hours
      ≤ DEFAULT_CONFIG.other_activity_max_hours_per_year :=
  ⟨⟨25000, by norm_num [DEFAULT_CONFIG]⟩,
    (activity_cap_characterization
        [⟨"student_research_university", some 1, 2024⟩,
         ⟨"student_research_university", some 1, 2024⟩,
         ⟨"student_research_university", some 1, 2024⟩,
         ⟨"student_research_university", some 1, 2024⟩] 2024 DEFAULT_CONFIG
        ⟨25000, by norm_num [DEFAULT_CONFIG]⟩).1⟩

/-- C9: the hours engine degrades bad input to zero instead of failing: an
unrecognized publication type yields 0 base hours, a patent-family type with
an absent or unrecognized stage yields 0, a non-positive total_authors is
treated as 1 author, and a non-positive duration_years is treated as 1 year. -/
theorem hours_engine_degrades_to_zero :
    (∀ (t : String) (q : Option String) (dp : ℚ) (ps : Option String) (rep : Bool)
        (config : HoursConfig), t ∉ knownPublicationTypes →
      get_base_hours t q dp ps rep config = 0) ∧
    (∀ (t : String) (q : Option String) (dp : ℚ) (ps : Option String) (rep : Bool)
        (config : HoursConfig),
      t ∈ ["patent_international", "patent_vietnam", "utility_solution"] →
      ps ≠ some "stage_1" → ps ≠ some "stage_2" →
      get_base_hours t q dp ps rep config = 0) ∧
    (∀ (b : ℚ) (role : String) (n : ℤ) (pct : Option ℚ), n ≤ 0 →
      calculate_author_hours b role n pct = calculate_author_hours b role 1 pct) ∧
    (∀ (role : String) (f : ℚ) (d : ℤ) (status : String) (m : ℤ)
        (config : HoursConfig), d ≤ 0 →
      calculate_project_hours "cooperation" role f d status m config
        = calculate_project_hours "cooperation" role f 1 status m config) := by
  refine ⟨?_, ?_, ?_, ?_⟩
  · intro t q dp ps rep config h
    simp only [knownPublicationTypes, List.mem_cons, List.not_mem_nil, or_false] at h
    push_neg at h
    obtain ⟨h1, h2, h3, h4, h5, h6, h7, h8, h9, h10, h11, h12, h13, h14, h15, h16,
      h17, h18, h19, h20, h21, h22⟩ := h
    simp [get_base_hours, h1, h2, h3, h4, h5, h6, h7, h8, h9, h10, h11, h12, h13,
      h14, h15, h16, h17, h18, h19, h20, h21, h22]
  · intro t q dp ps rep config ht hp1 hp2
    simp only [List.mem_cons, List.not_mem_nil, or_false] at ht
    rcases ht with h | h | h <;> subst h <;> simp [get_base_hours, hp1, hp2]
  · intro b role n pct hn
    by_cases hb : b ≤ 0
    · simp [calculate_author_hours, hb]
    · simp [calculate_author_hours, hb, hn]
  · intro role f d status m config hd
    by_cases hstat : status = "extended"
    · simp [calculate_project_hours, hstat]
    · simp [calculate_project_hours, hstat, hd]

/-- C9 witness: an unrecognized publication type is credited zero hours. -/
theorem hours_engine_degrades_to_zero_witness :
    ("unknown_type" ∉ knownPublicationTypes) ∧
    get_base_hours "unknown_type" none 0 none false DEFAULT_CONFIG = 0 :=
  ⟨by decide,
    hours_engine_degrades_to_zero.1 "unknown_type" none 0 none false DEFAULT_CONFIG
      (by decide)⟩

/-- C10: for journal_wos_scopus the Q1/Q2 figure (1800) is returned exactly
when the quartile is Q1 or Q2 and otherwise the Q3/Q4 figure (1400), including
when the quartile is absent or unrecognized — unlike a patent-family item
whose missing stage degrades to zero. -/
theorem wos_scopus_missing_quartile_lower_tier (q : Option String) (dp : ℚ)
    (ps : Option String) (rep : Bool) :
    get_base_hours "journal_wos_scopus" q dp ps rep DEFAULT_CONFIG
      = (if q = some "Q1" ∨ q = some "Q2" then 1800 else 1400) ∧
    get_base_hours "patent_vietnam" q dp none rep DEFAULT_CONFIG = 0 := by
  constructor
  · by_cases hq : q = some "Q1" ∨ q = some "Q2" <;>
      simp [get_base_hours, DEFAULT_CONFIG, hq]
  · simp [get_base_hours, DEFAULT_CONFIG]

end Web
